import Mathlib

/-!
# Shallow embedding of `src/main.ts` (the content-visible Obsidian plugin)

The plugin owns one boolean `contentVisible`, a status-bar text slot, a CSS
marker class `content-visible-hidden` on `document.body`, and injects one
toggle button (marker class `content-visible-toggle-button`) into the
`.view-actions` row of every open markdown pane.

Modelling choices, each tied to a line of the source:

* A pane (`WorkspaceLeaf`) is modelled by whether its view is a
  `MarkdownView` (line 63), whether its header exposes a `.view-actions`
  container (lines 66-69), and the ordered list of children of that
  container.  Every child of a `.view-actions` row carries the
  `view-action` class (the host's own action buttons are `.view-action`
  elements, and the injected button's class list at line 76 contains
  `view-action` as well), so `querySelector('.view-action')` sees every
  row element.
* `createDiv` (line 75) appends the created element to its parent, so the
  freshly created button is already the last child of the row when the
  `querySelector('.view-action')` at line 92 runs.
* `Node.insertBefore` with a `newChild` that is already in the container
  first removes it; when the reference child is the node itself the
  reference becomes the node's next sibling.  `domInsertBefore` renders
  exactly that.
* JavaScript objects are open: `Object.assign({}, DEFAULT_SETTINGS, data)`
  at line 142 copies every enumerable own field of `data`, recognized or
  not, onto the result, and `saveData(this.settings)` at line 146 writes
  that whole object back.  A persisted blob is therefore an optional
  `contentVisible` field plus a list of unknown fields (name and an
  opaque value, rendered as a natural number).
* The click handler attached at lines 86-89 only re-invokes
  `toggleContentVisibility`, which is modelled directly as a state
  transformer; handlers themselves carry no state and are not modelled.
-/

/-- `getIconSvg` (lines 106-112): the two literal SVG strings. -/
def getIconSvg (iconName : String) : String :=
  if iconName = "eye" then
    "<svg xmlns=\"http://www.w3.org/2000/svg\" width=\"16\" height=\"16\" viewBox=\"0 0 24 24\" fill=\"none\" stroke=\"currentColor\" stroke-width=\"2\" stroke-linecap=\"round\" stroke-linejoin=\"round\"><path d=\"M1 12s4-8 11-8 11 8 11 8-4 8-11 8-11-8-11-8z\"></path><circle cx=\"12\" cy=\"12\" r=\"3\"></circle></svg>"
  else
    "<svg xmlns=\"http://www.w3.org/2000/svg\" width=\"16\" height=\"16\" viewBox=\"0 0 24 24\" fill=\"none\" stroke=\"currentColor\" stroke-width=\"2\" stroke-linecap=\"round\" stroke-linejoin=\"round\"><path d=\"M17.94 17.94A10.07 10.07 0 0 1 12 20c-7 0-11-8-11-8a18.45 18.45 0 0 1 5.06-5.94M9.9 4.24A9.12 9.12 0 0 1 12 4c7 0 11 8 11 8a18.5 18.5 0 0 1-2.16 3.19m-6.72-1.07a3 3 0 1 1-4.24-4.24\"></path><line x1=\"1\" y1=\"1\" x2=\"23\" y2=\"23\"></line></svg>"

/-- The in-memory `this.settings` object.  Its TypeScript interface
(lines 3-5) declares only `contentVisible`, but at runtime the object
produced by `Object.assign` at line 142 also holds whatever unknown
fields the persisted blob contained; `extras` records those. -/
structure ContentViewSettings where
  contentVisible : Bool
  extras : List (String × Nat)
deriving DecidableEq, Repr

/-- `DEFAULT_SETTINGS` (lines 7-9): only `contentVisible: true`. -/
def DEFAULT_SETTINGS : ContentViewSettings :=
  { contentVisible := true, extras := [] }

/-- The persisted settings blob handed over by `loadData` / written by
`saveData`: an optional `contentVisible` field plus unknown fields.  A
missing data file (`loadData` returning `null`) and an empty object both
contribute no fields and are rendered as `⟨none, []⟩`. -/
structure Blob where
  contentVisible? : Option Bool
  extras : List (String × Nat)
deriving DecidableEq, Repr

/-- `loadSettings` (lines 141-143):
`this.settings = Object.assign({}, DEFAULT_SETTINGS, await this.loadData())`.
`Object.assign` copies, key by key, first the defaults and then every
enumerable own field of the blob, so the blob's `contentVisible` (when
present) overrides the default and the blob's unknown fields land on the
settings object too (`DEFAULT_SETTINGS` contributes no extra fields). -/
def loadSettings (data : Blob) : ContentViewSettings :=
  { contentVisible := data.contentVisible?.getD DEFAULT_SETTINGS.contentVisible
    extras := DEFAULT_SETTINGS.extras ++ data.extras }

/-- `saveSettings` (lines 145-147): `await this.saveData(this.settings)`
serializes the whole in-memory settings object into the persisted blob. -/
def saveData (settings : ContentViewSettings) : Blob :=
  { contentVisible? := some settings.contentVisible
    extras := settings.extras }

/-- One child element of a pane's `.view-actions` row: either the
plugin's toggle button (class list
`clickable-icon view-action content-visible-toggle-button`, line 76)
carrying its current innerHTML icon and `aria-label`, or one of the
host's own `.view-action` controls, identified by an opaque id. -/
inductive RowElem where
  | toggleBtn (icon : String) (ariaLabel : String)
  | hostAction (id : Nat)
deriving DecidableEq, Repr

/-- Whether an element matches `querySelectorAll('.content-visible-toggle-button')`. -/
def RowElem.isToggleBtn : RowElem → Bool
  | .toggleBtn _ _ => true
  | .hostAction _ => false

/-- Whether an element matches `querySelector('.view-action')`.  Every
child of a `.view-actions` row carries the class: the host's action
buttons by construction, the injected button by its class list (line 76). -/
def RowElem.isViewAction : RowElem → Bool := fun _ => true

/-- One open pane (`WorkspaceLeaf`). -/
structure Leaf where
  /-- `view instanceof MarkdownView` (line 63); leaves enumerated by
  `getLeavesOfType('markdown')` (line 55) are exactly these. -/
  isMarkdownView : Bool
  /-- Whether `containerEl?.querySelector('.view-header')?.querySelector('.view-actions')`
  (lines 66-67) finds the actions container. -/
  hasViewActions : Bool
  /-- Children of the `.view-actions` container, in document order. -/
  actions : List RowElem
deriving DecidableEq, Repr

/-- The whole observable state: the plugin's fields, the DOM it touches,
and the host's persisted blob. -/
structure PluginState where
  settings : ContentViewSettings
  /-- Presence of the class `content-visible-hidden` on `document.body`. -/
  bodyHidden : Bool
  /-- Text of the status bar item (line 13, set at line 138). -/
  statusBarText : String
  /-- All open panes of the workspace, in order. -/
  leaves : List Leaf
  /-- The host's persisted settings blob. -/
  savedData : Blob
deriving DecidableEq, Repr

/-- `updateButtonIcon` (lines 100-104): `button.empty()` then
`button.innerHTML = getIconSvg(contentVisible ? 'eye' : 'eye-off')`.
Only a toggle button is ever passed; other elements are untouched. -/
def updateButtonIcon (settings : ContentViewSettings) : RowElem → RowElem
  | .toggleBtn _ label =>
      .toggleBtn (getIconSvg (if settings.contentVisible then "eye" else "eye-off")) label
  | e => e

/-- `button.setAttribute('aria-label', ...)` (line 133). -/
def setAriaLabel (label : String) : RowElem → RowElem
  | .toggleBtn icon _ => .toggleBtn icon label
  | e => e

/-- `document.querySelectorAll('.content-visible-toggle-button').forEach(el => el.remove())`
(lines 45 and 52): drop every toggle button from every row. -/
def removeAllToggleButtons (leaves : List Leaf) : List Leaf :=
  leaves.map fun leaf =>
    { leaf with actions := leaf.actions.filter fun e => !e.isToggleBtn }

/-- The element after the first occurrence of `node`, i.e. `node.nextSibling`. -/
def nextSibling : List RowElem → RowElem → Option RowElem
  | [], _ => none
  | a :: rest, node => if a = node then rest.head? else nextSibling rest node

/-- Removing a child node from a container (the removal step of
`Node.insertBefore` when the node is already a child): drop the first
occurrence of `node`. -/
def domErase : List RowElem → RowElem → List RowElem
  | [], _ => []
  | a :: rest, node => if a = node then rest else a :: domErase rest node

/-- Insert `node` immediately before the first occurrence of `ref`
(assumed present; `Node.insertBefore` throws otherwise, which never
happens in this plugin's calls). -/
def insertListBefore : List RowElem → RowElem → RowElem → List RowElem
  | [], node, _ => [node]
  | a :: rest, node, ref =>
      if a = ref then node :: a :: rest else a :: insertListBefore rest node ref

/-- `container.insertBefore(node, ref)` per the DOM standard when `node`
may already be a child: if `ref` is `node` itself the reference becomes
`node`'s next sibling, then `node` is removed from the container and
inserted before the (adjusted) reference, or appended when the reference
is null. -/
def domInsertBefore (row : List RowElem) (node ref : RowElem) : List RowElem :=
  let refAdj : Option RowElem := if ref = node then nextSibling row node else some ref
  let row' := domErase row node
  match refAdj with
  | none => row' ++ [node]
  | some r => insertListBefore row' node r

/-- `addButtonToLeaf` (lines 61-98) as a transformer of the one leaf it
touches.  Early returns: non-`MarkdownView` views (line 63), a missing
`.view-actions` container (line 69), an already-present toggle button
(line 72).  Otherwise `createDiv` appends a new button (aria-label per
line 78), `updateButtonIcon` fills its icon (line 83), a click handler
invoking `toggleContentVisibility` is attached (lines 86-89, stateless,
not modelled), and lines 91-97 reposition it before the row's first
`.view-action` element, or append it when none exists. -/
def addButtonToLeaf (settings : ContentViewSettings) (leaf : Leaf) : Leaf :=
  if !leaf.isMarkdownView then leaf
  else if !leaf.hasViewActions then leaf
  else if leaf.actions.any RowElem.isToggleBtn then leaf
  else
    let button : RowElem :=
      updateButtonIcon settings
        (.toggleBtn "" (if settings.contentVisible then "Hide content" else "Show content"))
    let row := leaf.actions ++ [button]
    match row.find? RowElem.isViewAction with
    | some firstAction => { leaf with actions := domInsertBefore row button firstAction }
    | none => { leaf with actions := domErase row button ++ [button] }

/-- `addViewActionButtons` (lines 50-59): remove every existing toggle
button from the document, then run `addButtonToLeaf` on each leaf of
`getLeavesOfType('markdown')`.  Restricting the `forEach` to the
markdown leaves is rendered by mapping `addButtonToLeaf` only over
leaves with `isMarkdownView` (on the others `addButtonToLeaf` would be
the identity anyway, by its first guard). -/
def addViewActionButtons (s : PluginState) : PluginState :=
  let stripped := removeAllToggleButtons s.leaves
  { s with
    leaves := stripped.map fun leaf =>
      if leaf.isMarkdownView then addButtonToLeaf s.settings leaf else leaf }

/-- `applyContentVisibility` (lines 122-128): remove the body class when
visible, add it when hidden, regardless of its prior presence. -/
def applyContentVisibility (s : PluginState) : PluginState :=
  if s.settings.contentVisible then { s with bodyHidden := false }
  else { s with bodyHidden := true }

/-- The body of the `forEach` of `updateAllButtons` (lines 131-134),
applied to one row element: elements matching
`.content-visible-toggle-button` get their icon and aria-label
refreshed, every other element is left alone. -/
def refreshButton (settings : ContentViewSettings) (e : RowElem) : RowElem :=
  if e.isToggleBtn then
    setAriaLabel (if settings.contentVisible then "Hide content" else "Show content")
      (updateButtonIcon settings e)
  else e

/-- `updateAllButtons` (lines 130-135): for every element matching
`.content-visible-toggle-button`, refresh its icon and its aria-label
from the current `contentVisible`. -/
def updateAllButtons (settings : ContentViewSettings) (leaves : List Leaf) : List Leaf :=
  leaves.map fun leaf =>
    { leaf with actions := leaf.actions.map (refreshButton settings) }

/-- `updateStatusBar` (lines 137-139). -/
def updateStatusBar (s : PluginState) : PluginState :=
  { s with statusBarText := if s.settings.contentVisible then "👁️ Visible" else "🚫 Hidden" }

/-- `saveSettings` as a step on the whole state: the persisted blob
becomes the serialization of the in-memory settings. -/
def saveSettingsStep (s : PluginState) : PluginState :=
  { s with savedData := saveData s.settings }

/-- `toggleContentVisibility` (lines 114-120): flip the flag, persist,
re-apply the body class, refresh every button, refresh the status bar. -/
def toggleContentVisibility (s : PluginState) : PluginState :=
  let s1 := { s with settings := { s.settings with contentVisible := !s.settings.contentVisible } }
  let s2 := saveSettingsStep s1
  let s3 := applyContentVisibility s2
  let s4 := { s3 with leaves := updateAllButtons s3.settings s3.leaves }
  updateStatusBar s4

/-- `onunload` (lines 43-48): remove every toggle button from the
document, remove the body class; the persisted blob is not touched. -/
def onunload (s : PluginState) : PluginState :=
  let s1 := { s with leaves := removeAllToggleButtons s.leaves }
  { s1 with bodyHidden := false }

/-- The icon a toggle button carries when `contentVisible = cv`
(line 102 composed with `getIconSvg`). -/
def buttonIconFor (cv : Bool) : String :=
  getIconSvg (if cv then "eye" else "eye-off")

/-- The aria-label a toggle button carries when `contentVisible = cv`
(the ternary of lines 78 and 133). -/
def buttonLabelFor (cv : Bool) : String :=
  if cv then "Hide content" else "Show content"

/-- The button `addButtonToLeaf` creates under settings `settings`. -/
def newButtonFor (settings : ContentViewSettings) : RowElem :=
  .toggleBtn (buttonIconFor settings.contentVisible) (buttonLabelFor settings.contentVisible)

/-- Number of elements of a leaf's action row carrying the plugin's
marker class `content-visible-toggle-button`. -/
def affordanceCount (leaf : Leaf) : Nat :=
  (leaf.actions.filter RowElem.isToggleBtn).length

/-- A pane that actually receives a button: a markdown view whose header
exposes the `.view-actions` container. -/
def goodPane (leaf : Leaf) : Bool :=
  leaf.isMarkdownView && leaf.hasViewActions

/-- Every toggle button in `leaves` shows the icon and label for `cv`. -/
def buttonsInSync (cv : Bool) (leaves : List Leaf) : Bool :=
  leaves.all fun leaf => leaf.actions.all fun e =>
    match e with
    | .toggleBtn icon label => icon == buttonIconFor cv && label == buttonLabelFor cv
    | .hostAction _ => true

/-! ## Helper lemmas -/

/-- Stripping the toggle buttons out of a row leaves no toggle button. -/
lemma any_isToggleBtn_filter (l : List RowElem) :
    (l.filter fun e => !e.isToggleBtn).any RowElem.isToggleBtn = false := by
  induction l with
  | nil => rfl
  | cons a t ih => cases a <;> simp [RowElem.isToggleBtn, List.filter_cons, ih]

/-- Stripping the toggle buttons out of a row brings its toggle-button
count to zero. -/
lemma length_filter_isToggleBtn_filter (l : List RowElem) :
    ((l.filter fun e => !e.isToggleBtn).filter RowElem.isToggleBtn).length = 0 := by
  induction l with
  | nil => rfl
  | cons a t ih => cases a <;> simp [RowElem.isToggleBtn, List.filter_cons, ih]

/-- `domErase` of an element appended to a list not containing it
removes exactly that element. -/
lemma domErase_append_singleton (l : List RowElem) (b : RowElem) (h : b ∉ l) :
    domErase (l ++ [b]) b = l := by
  induction l with
  | nil => simp [domErase]
  | cons a t ih =>
      have hab : ¬(a = b) := fun hc => h (hc ▸ List.mem_cons_self a t)
      have hbt : b ∉ t := fun hm => h (List.mem_cons_of_mem a hm)
      simp [domErase, hab, ih hbt]

/-- A row with no toggle button does not contain the freshly created one. -/
lemma newButton_not_mem (settings : ContentViewSettings) (l : List RowElem)
    (h : l.any RowElem.isToggleBtn = false) : newButtonFor settings ∉ l := by
  intro hmem
  have htrue : l.any RowElem.isToggleBtn = true :=
    List.any_eq_true.mpr ⟨newButtonFor settings, hmem, rfl⟩
  rw [h] at htrue
  exact Bool.false_ne_true htrue

/-- On a markdown pane with a `.view-actions` container and no existing
toggle button, `addButtonToLeaf` prepends the freshly created button to
the action row. -/
lemma addButtonToLeaf_of_ready (settings : ContentViewSettings) (leaf : Leaf)
    (h1 : leaf.isMarkdownView = true) (h2 : leaf.hasViewActions = true)
    (h3 : leaf.actions.any RowElem.isToggleBtn = false) :
    addButtonToLeaf settings leaf = { leaf with actions := newButtonFor settings :: leaf.actions } := by
  have hnot : newButtonFor settings ∉ leaf.actions := newButton_not_mem settings leaf.actions h3
  have hbtn : updateButtonIcon settings
      (RowElem.toggleBtn "" (if settings.contentVisible then "Hide content" else "Show content"))
      = newButtonFor settings := rfl
  unfold addButtonToLeaf
  rw [h1, h2, h3]
  simp only [Bool.not_true, Bool.false_eq_true, if_false, hbtn]
  cases hact : leaf.actions with
  | nil =>
      simp [List.find?, RowElem.isViewAction, domInsertBefore, nextSibling, domErase]
  | cons a t =>
      rw [hact] at hnot
      have hab : ¬(a = newButtonFor settings) := fun hc => hnot (hc ▸ List.mem_cons_self a t)
      have herase : domErase (a :: (t ++ [newButtonFor settings])) (newButtonFor settings)
          = a :: t := by
        have h := domErase_append_singleton (a :: t) (newButtonFor settings) hnot
        simpa using h
      simp only [List.cons_append, List.find?, RowElem.isViewAction, domInsertBefore]
      rw [if_neg hab, herase]
      simp [insertListBefore]

/-- `addButtonToLeaf` leaves a pane alone when the view is not a
markdown view or the `.view-actions` container is missing. -/
lemma addButtonToLeaf_of_not_ready (settings : ContentViewSettings) (leaf : Leaf)
    (h : leaf.isMarkdownView = false ∨ leaf.hasViewActions = false) :
    addButtonToLeaf settings leaf = leaf := by
  unfold addButtonToLeaf
  rcases h with h | h
  · rw [h]
    simp
  · rw [h]
    cases hm : leaf.isMarkdownView <;> simp

/-- One rescan pass over a single pane, pointwise: the resulting pane
satisfies the single-affordance count (one toggle button on a markdown
pane with an actions container, zero otherwise). -/
lemma rescan_pointwise (settings : ContentViewSettings) (m v : Bool) (acts : List RowElem) :
    (affordanceCount
        (if m then addButtonToLeaf settings ⟨m, v, acts.filter fun e => !e.isToggleBtn⟩
         else ⟨m, v, acts.filter fun e => !e.isToggleBtn⟩)
      == if goodPane
        (if m then addButtonToLeaf settings ⟨m, v, acts.filter fun e => !e.isToggleBtn⟩
         else ⟨m, v, acts.filter fun e => !e.isToggleBtn⟩) then 1 else 0) = true := by
  cases m with
  | false =>
      simp [goodPane, affordanceCount, length_filter_isToggleBtn_filter]
  | true =>
      cases v with
      | false =>
          rw [if_pos rfl,
            addButtonToLeaf_of_not_ready settings ⟨true, false, acts.filter fun e => !e.isToggleBtn⟩
              (Or.inr rfl)]
          simp [goodPane, affordanceCount, length_filter_isToggleBtn_filter]
      | true =>
          rw [if_pos rfl,
            addButtonToLeaf_of_ready settings ⟨true, true, acts.filter fun e => !e.isToggleBtn⟩
              rfl rfl (any_isToggleBtn_filter acts)]
          simp [goodPane, affordanceCount, List.filter_cons, newButtonFor, RowElem.isToggleBtn,
            length_filter_isToggleBtn_filter]

/-- The single-affordance count holds for the whole pane list after one
strip-and-rebuild pass. -/
lemma rescan_all (settings : ContentViewSettings) (ls : List Leaf) :
    (((ls.map fun leaf => { leaf with actions := leaf.actions.filter fun e => !e.isToggleBtn }).map
        fun leaf => if leaf.isMarkdownView then addButtonToLeaf settings leaf else leaf).all
      fun leaf => affordanceCount leaf == if goodPane leaf then 1 else 0) = true := by
  induction ls with
  | nil => rfl
  | cons l t ih =>
      obtain ⟨m, v, acts⟩ := l
      simp only [List.map_cons, List.all_cons, ih, Bool.and_true]
      exact rescan_pointwise settings m v acts

/-- After one `addViewActionButtons` pass, every markdown pane with an
actions container holds exactly one toggle button and every other pane
holds none. -/
lemma rescan_invariant_one (s : PluginState) :
    ((addViewActionButtons s).leaves.all fun leaf =>
      affordanceCount leaf == if goodPane leaf then 1 else 0) = true :=
  rescan_all s.settings s.leaves

/-- Projections of one `toggleContentVisibility` step. -/
lemma toggle_settings (s : PluginState) :
    (toggleContentVisibility s).settings
      = { s.settings with contentVisible := !s.settings.contentVisible } := by
  cases h : s.settings.contentVisible <;>
    simp [toggleContentVisibility, saveSettingsStep, applyContentVisibility, updateStatusBar, h]

lemma toggle_bodyHidden (s : PluginState) :
    (toggleContentVisibility s).bodyHidden = s.settings.contentVisible := by
  cases h : s.settings.contentVisible <;>
    simp [toggleContentVisibility, saveSettingsStep, applyContentVisibility, updateStatusBar, h]

lemma toggle_leaves (s : PluginState) :
    (toggleContentVisibility s).leaves
      = updateAllButtons { s.settings with contentVisible := !s.settings.contentVisible } s.leaves := by
  cases h : s.settings.contentVisible <;>
    simp [toggleContentVisibility, saveSettingsStep, applyContentVisibility, updateStatusBar, h]

lemma toggle_statusBarText (s : PluginState) :
    (toggleContentVisibility s).statusBarText
      = if !s.settings.contentVisible then "👁️ Visible" else "🚫 Hidden" := by
  cases h : s.settings.contentVisible <;>
    simp [toggleContentVisibility, saveSettingsStep, applyContentVisibility, updateStatusBar, h]

/-- A refreshed row element matches the current `contentVisible`. -/
lemma refreshButton_sync (settings : ContentViewSettings) (e : RowElem) :
    (match refreshButton settings e with
     | RowElem.toggleBtn icon label =>
        icon == buttonIconFor settings.contentVisible && label == buttonLabelFor settings.contentVisible
     | RowElem.hostAction _ => true) = true := by
  cases e <;>
    simp [refreshButton, setAriaLabel, updateButtonIcon, RowElem.isToggleBtn, buttonIconFor,
      buttonLabelFor]

/-- After `updateAllButtons`, every toggle button matches the current
`contentVisible`. -/
lemma buttonsInSync_updateAllButtons (settings : ContentViewSettings) (leaves : List Leaf) :
    buttonsInSync settings.contentVisible (updateAllButtons settings leaves) = true := by
  unfold buttonsInSync updateAllButtons
  rw [List.all_eq_true]
  intro leaf hleaf
  rw [List.mem_map] at hleaf
  obtain ⟨l0, -, rfl⟩ := hleaf
  rw [List.all_eq_true]
  intro e he
  rw [List.mem_map] at he
  obtain ⟨e0, -, rfl⟩ := he
  exact refreshButton_sync settings e0

set_option maxRecDepth 40000 in
/-- The two icons of the two visibility states differ. -/
lemma buttonIconFor_true_ne_false : buttonIconFor true ≠ buttonIconFor false := by decide

/-- The two aria-labels of the two visibility states differ. -/
lemma buttonLabelFor_true_ne_false : buttonLabelFor true ≠ buttonLabelFor false := by decide

lemma buttonIconFor_not_ne (b : Bool) : buttonIconFor (!b) ≠ buttonIconFor b := by
  cases b with
  | false => exact buttonIconFor_true_ne_false
  | true => exact fun h => buttonIconFor_true_ne_false h.symm

lemma buttonLabelFor_not_ne (b : Bool) : buttonLabelFor (!b) ≠ buttonLabelFor b := by
  cases b with
  | false => exact buttonLabelFor_true_ne_false
  | true => exact fun h => buttonLabelFor_true_ne_false h.symm

lemma visible_ne_hidden : ("👁️ Visible" : String) ≠ "🚫 Hidden" := by decide

/-! ## Claims -/

/-- Concrete workspace refuting claim C1 as stated: one open markdown
pane whose header lacks the `.view-actions` container. -/
def c1State : PluginState :=
  { settings := DEFAULT_SETTINGS, bodyHidden := false, statusBarText := "",
    leaves := [{ isMarkdownView := true, hasViewActions := false, actions := [] }],
    savedData := { contentVisible? := none, extras := [] } }

/-- C1 (counterexample): after a rescan of `c1State`, its markdown pane
holds zero elements with the affordance marker class, not exactly one,
so the claim as stated is false for this set of open panes. -/
theorem c1_counterexample :
    ((addViewActionButtons c1State).leaves.all fun leaf =>
      !leaf.isMarkdownView || (affordanceCount leaf == 1)) = false := by decide

/-- C1 (amended): for every set of open panes and every sequence of one
or more `addViewActionButtons` calls with no intervening pane changes,
each open markdown pane whose header has the expected actions container
holds exactly one element with the affordance marker class, every other
pane holds none — in particular no pane ever holds more than one,
regardless of how many rescans occurred. -/
theorem c1_single_affordance_invariant (s : PluginState) (n : Nat) :
    ((addViewActionButtons^[n] (addViewActionButtons s)).leaves.all fun leaf =>
      affordanceCount leaf == if goodPane leaf then 1 else 0) = true := by
  have h : addViewActionButtons^[n] (addViewActionButtons s)
      = addViewActionButtons (addViewActionButtons^[n] s) := by
    rw [← Function.iterate_succ_apply, Function.iterate_succ_apply']
  rw [h]
  exact rescan_invariant_one _

/-- Starting state refuting claim C2 as stated: the presentation marker
class is present while `contentVisible` is true (a mismatch the plugin
never produces itself, but the claim quantifies over every state). -/
def c2State : PluginState :=
  { settings := { contentVisible := true, extras := [] }, bodyHidden := true,
    statusBarText := "", leaves := [],
    savedData := { contentVisible? := none, extras := [] } }

/-- C2 (counterexample): from `c2State`, two toggles return
`contentVisible` to its original value but leave the presentation
marker class absent, not present as it originally was. -/
theorem c2_counterexample :
    (toggleContentVisibility (toggleContentVisibility c2State)).settings.contentVisible
        = c2State.settings.contentVisible
    ∧ (toggleContentVisibility (toggleContentVisibility c2State)).bodyHidden
        ≠ c2State.bodyHidden := by decide

/-- C2 (amended): from every starting state in which the presentation
marker class agrees with the flag (present exactly when content is
hidden — true of every state the plugin itself produces), calling
toggle twice returns both `contentVisible` and the marker class to
their original values. -/
theorem c2_toggle_twice_restores (s : PluginState)
    (h : s.bodyHidden = !s.settings.contentVisible) :
    (toggleContentVisibility (toggleContentVisibility s)).settings.contentVisible
        = s.settings.contentVisible
    ∧ (toggleContentVisibility (toggleContentVisibility s)).bodyHidden = s.bodyHidden := by
  constructor
  · rw [toggle_settings, toggle_settings]
    simp
  · rw [toggle_bodyHidden, toggle_settings]
    simp [h]

/-- A concrete reachable starting state for the witness of C2. -/
def c2Witness : PluginState :=
  { settings := DEFAULT_SETTINGS, bodyHidden := false, statusBarText := "",
    leaves := [], savedData := { contentVisible? := none, extras := [] } }

/-- Witness for the amended C2 at `c2Witness`. -/
theorem c2_toggle_twice_restores_witness :
    (toggleContentVisibility (toggleContentVisibility c2Witness)).settings.contentVisible
        = c2Witness.settings.contentVisible
    ∧ (toggleContentVisibility (toggleContentVisibility c2Witness)).bodyHidden
        = c2Witness.bodyHidden :=
  c2_toggle_twice_restores c2Witness (by decide)

/-- C3: at the end of every `toggleContentVisibility` call, every
element carrying the affordance marker class shows the icon and the
accessible label of the new `contentVisible` value, the status
indicator text matches the new value, and the new icon and label both
differ from the pre-toggle ones — so no affordance retains the
pre-toggle icon or label. -/
theorem c3_toggle_syncs_affordances (s : PluginState) :
    buttonsInSync (toggleContentVisibility s).settings.contentVisible
        (toggleContentVisibility s).leaves = true
    ∧ (toggleContentVisibility s).statusBarText
        = (if (toggleContentVisibility s).settings.contentVisible then "👁️ Visible"
           else "🚫 Hidden")
    ∧ buttonIconFor (toggleContentVisibility s).settings.contentVisible
        ≠ buttonIconFor s.settings.contentVisible
    ∧ buttonLabelFor (toggleContentVisibility s).settings.contentVisible
        ≠ buttonLabelFor s.settings.contentVisible := by
  refine ⟨?_, ?_, ?_, ?_⟩
  · rw [toggle_settings, toggle_leaves]
    exact buttonsInSync_updateAllButtons _ s.leaves
  · rw [toggle_statusBarText, toggle_settings]
  · rw [toggle_settings]
    exact buttonIconFor_not_ne s.settings.contentVisible
  · rw [toggle_settings]
    exact buttonLabelFor_not_ne s.settings.contentVisible

/-- A persisted blob with an unrecognized extra field. -/
def c4Blob : Blob := { contentVisible? := some false, extras := [("foo", 7)] }

/-- C4 (counterexample): loading `c4Blob` reads `contentVisible`
correctly, but the unknown field lands in the in-memory settings and is
written back by `saveSettings` — it IS carried into the state the
plugin later persists, contrary to the claim. -/
theorem c4_counterexample :
    (loadSettings c4Blob).contentVisible = false
    ∧ (loadSettings c4Blob).extras = [("foo", 7)]
    ∧ (saveData (loadSettings c4Blob)).extras = [("foo", 7)] := by decide

/-- C4 (amended): for every persisted blob, `loadSettings` reads
`contentVisible` correctly (the stored value when present, the default
`true` otherwise) and unknown fields never influence it; however the
`Object.assign` merge copies the unknown fields into the loaded
settings, and `saveSettings` writes them back into the persisted blob
unchanged. -/
theorem c4_load_save (data : Blob) :
    (loadSettings data).contentVisible = data.contentVisible?.getD true
    ∧ (loadSettings data).extras = data.extras
    ∧ saveData (loadSettings data)
        = { contentVisible? := some (data.contentVisible?.getD true), extras := data.extras } :=
  ⟨rfl, rfl, rfl⟩

/-- C5: a persisted blob with no `contentVisible` field — in particular
the empty blob, which also renders a missing data file — loads with
`contentVisible = true`. -/
theorem c5_default_load (extras : List (String × Nat)) :
    (loadSettings { contentVisible? := none, extras := extras }).contentVisible = true := rfl

/-- C6: after `onunload`, no element carrying the affordance marker
class remains in any pane, the presentation marker class is absent from
the document body, and the persisted blob is untouched — whatever the
prior visibility state and affordance set. -/
theorem c6_onunload_clean (s : PluginState) :
    ((onunload s).leaves.all fun leaf => affordanceCount leaf == 0) = true
    ∧ (onunload s).bodyHidden = false
    ∧ (onunload s).savedData = s.savedData := by
  refine ⟨?_, rfl, rfl⟩
  rw [List.all_eq_true]
  intro leaf hleaf
  simp only [onunload, removeAllToggleButtons, List.mem_map] at hleaf
  obtain ⟨l0, -, rfl⟩ := hleaf
  simp [affordanceCount, length_filter_isToggleBtn_filter]

/-- C7: on a pane whose view is not a markdown document view, or on a
markdown pane whose header lacks the actions container,
`addButtonToLeaf` returns the pane unchanged: no affordance is created
and, the embedding being a total function, no error is raised — the
call is a silent no-op for that pane. -/
theorem c7_addButtonToLeaf_skips (settings : ContentViewSettings) (leaf : Leaf)
    (h : leaf.isMarkdownView = false ∨ leaf.hasViewActions = false) :
    addButtonToLeaf settings leaf = leaf :=
  addButtonToLeaf_of_not_ready settings leaf h

/-- A concrete non-markdown pane for the witness of C7. -/
def c7Leaf : Leaf :=
  { isMarkdownView := false, hasViewActions := true, actions := [RowElem.hostAction 0] }

/-- Witness for C7 at `c7Leaf`. -/
theorem c7_addButtonToLeaf_skips_witness :
    addButtonToLeaf DEFAULT_SETTINGS c7Leaf = c7Leaf :=
  c7_addButtonToLeaf_skips DEFAULT_SETTINGS c7Leaf (Or.inl rfl)

/-- A markdown pane with two pre-existing host controls. -/
def c8Leaf : Leaf :=
  { isMarkdownView := true, hasViewActions := true,
    actions := [RowElem.hostAction 0, RowElem.hostAction 1] }

/-- A markdown pane with an empty action row. -/
def c8LeafEmpty : Leaf :=
  { isMarkdownView := true, hasViewActions := true, actions := [] }

/-- C8: on a markdown pane with a valid actions container (and no
pre-existing affordance, as after the removal phase of a rescan), the
new affordance lands at a deterministic position: the row becomes the
new button followed by the original row, i.e. the button sits
immediately before the first pre-existing control when the row has one,
and is appended as the sole element when the row is empty. -/
theorem c8_button_position (settings : ContentViewSettings) (leaf : Leaf)
    (h1 : leaf.isMarkdownView = true) (h2 : leaf.hasViewActions = true)
    (h3 : leaf.actions.any RowElem.isToggleBtn = false) :
    (addButtonToLeaf settings leaf).actions = newButtonFor settings :: leaf.actions
    ∧ (leaf.actions = [] →
        (addButtonToLeaf settings leaf).actions = leaf.actions ++ [newButtonFor settings]) := by
  have h := addButtonToLeaf_of_ready settings leaf h1 h2 h3
  constructor
  · rw [h]
  · intro he
    rw [h, he]
    rfl

/-- Witness for C8 at `c8Leaf` and `c8LeafEmpty`. -/
theorem c8_button_position_witness :
    (addButtonToLeaf DEFAULT_SETTINGS c8Leaf).actions
        = newButtonFor DEFAULT_SETTINGS :: c8Leaf.actions
    ∧ (addButtonToLeaf DEFAULT_SETTINGS c8LeafEmpty).actions
        = c8LeafEmpty.actions ++ [newButtonFor DEFAULT_SETTINGS] :=
  ⟨(c8_button_position DEFAULT_SETTINGS c8Leaf rfl rfl rfl).1,
   (c8_button_position DEFAULT_SETTINGS c8LeafEmpty rfl rfl rfl).2 rfl⟩

/-- C9: `updateStatusBar` writes exactly one of the two literal strings
to the status slot — the visible text precisely when `contentVisible`
is true and the hidden text precisely when it is false — and never any
other text. -/
theorem c9_status_text (s : PluginState) :
    ((updateStatusBar s).statusBarText = "👁️ Visible"
        ∨ (updateStatusBar s).statusBarText = "🚫 Hidden")
    ∧ ((updateStatusBar s).statusBarText = "👁️ Visible" ↔ s.settings.contentVisible = true)
    ∧ ((updateStatusBar s).statusBarText = "🚫 Hidden" ↔ s.settings.contentVisible = false) := by
  cases h : s.settings.contentVisible <;>
    simp [updateStatusBar, h, visible_ne_hidden, Ne.symm visible_ne_hidden]

/-- C10: whatever the prior presence of the presentation marker class
on the document body, after `applyContentVisibility` the class is
present exactly when `contentVisible` is false — in particular the
operation actively removes the class when content is visible and is
idempotent. -/
theorem c10_apply_visibility (s : PluginState) :
    ((applyContentVisibility s).bodyHidden = true ↔ s.settings.contentVisible = false)
    ∧ applyContentVisibility (applyContentVisibility s) = applyContentVisibility s := by
  cases h : s.settings.contentVisible <;> simp [applyContentVisibility, h]
